import Mathlib

/-!
Verification of the human-in-the-loop (HITL) warehouse-query workflow of the
stock/crypto data pipeline chatbot, as implemented in
scripts/chatbot/warehouse_tools.py and scripts/chatbot/chatbot.py.

The Python modules are shallowly embedded: the pending-query store is a list of
key/value bindings standing for the module-level dict, JSON payloads are an
inductive value type (json.dumps / json.loads are modelled by tagging each
string with its parse result), exceptions are explicit error values, and the
warehouse round trip of execute_pending_query is recorded as an explicit event
so that absence of execution is provable.
-/

namespace StockCryptoChatbot

/-- Model of a JSON-compatible value as produced and consumed by the chatbot
(json.dumps / json.loads in the Python source). Numbers are modelled as
integers; the only numeric field the claims mention is the created_at
timestamp, which no claim computes with. -/
inductive Json where
  | null : Json
  | bool (b : Bool) : Json
  | num (n : Int) : Json
  | str (s : String) : Json
  | arr (items : List Json) : Json
  | obj (fields : List (String × Json)) : Json
deriving Repr

/-- Model of a Python string flowing through tool-result message content.
A value json j stands for a string whose json.loads yields j (for example the
output of json.dumps j); a value raw s stands for a plain string on which
json.loads raises. -/
inductive Content where
  | json (j : Json) : Content
  | raw (s : String) : Content
deriving Repr

/-- Model of json.loads wrapped in try/except: parsing the text of a Content
either yields its JSON value or fails. -/
def parse_json : Content → Option Json
  | .json j => some j
  | .raw _ => none

/-- dict.get on the field list of a JSON object (first binding wins, as in a
Python dict whose keys are unique). -/
def obj_get (fields : List (String × Json)) (key : String) : Option Json :=
  (fields.find? (fun p => p.1 == key)).map (fun p => p.2)

/-- dict.get with a default value. -/
def obj_getD (fields : List (String × Json)) (key : String) (dflt : Json) : Json :=
  (obj_get fields key).getD dflt

/-- warehouse_tools.PendingQuery: a query awaiting human approval.
created_at is the time.time() timestamp, modelled as a natural number since no
code path computes with it. -/
structure PendingQuery where
  query_id : String
  tool_name : String
  sql : String
  created_at : Nat
deriving Repr, DecidableEq

/-- The module-level dict warehouse_tools._PENDING_QUERIES, modelled as a list
of key/value bindings with unique keys. -/
abbrev Store := List (String × PendingQuery)

/-- dict lookup _PENDING_QUERIES.get(query_id). -/
def store_lookup (query_id : String) (s : Store) : Option PendingQuery :=
  (s.find? (fun p => p.1 == query_id)).map (fun p => p.2)

/-- Removal of a key, as performed by dict.pop (removing nothing when the key
is absent). -/
def store_erase (query_id : String) (s : Store) : Store :=
  s.filter (fun p => !(p.1 == query_id))

/-- dict.pop(query_id, None): the returned value together with the store after
removal. -/
def store_pop (query_id : String) (s : Store) : Option PendingQuery × Store :=
  (store_lookup query_id s, store_erase query_id s)

/-- Insertion of a fresh binding, as performed by dict assignment. -/
def store_insert (query_id : String) (pq : PendingQuery) (s : Store) : Store :=
  store_erase query_id s ++ [(query_id, pq)]

/-- warehouse_tools._register_pending_query: builds the PendingQuery record
(with the SQL stripped of surrounding whitespace) and inserts it into the
store. The freshly generated uuid and the current time are passed in
explicitly since they come from the environment. -/
def register_pending_query (uid : String) (now : Nat) (tool_name sql : String)
    (s : Store) : PendingQuery × Store :=
  let pq : PendingQuery := ⟨uid, tool_name, sql.trim, now⟩
  (pq, store_insert uid pq s)

/-- warehouse_tools.get_pending_query. -/
def get_pending_query (query_id : String) (s : Store) : Option PendingQuery :=
  store_lookup query_id s

/-- warehouse_tools.cancel_pending_query: dict.pop and report whether a record
was removed. -/
def cancel_pending_query (query_id : String) (s : Store) : Bool × Store :=
  let (popped, s1) := store_pop query_id s
  (popped.isSome, s1)

/-- The literal message execute_pending_query returns when the id is unknown. -/
def no_pending_msg : String :=
  "No pending query found (it may have been executed or cancelled already)."

/-- Outcome of execute_pending_query. The ran case stands for the Snowflake
round trip cursor.execute(pq.sql) (whose textual result depends on the
external warehouse and is therefore not modelled); the message case carries
the literal string returned without touching the warehouse. -/
inductive ExecResponse where
  | message (s : String) : ExecResponse
  | ran (sql : String) : ExecResponse
deriving Repr, DecidableEq

/-- warehouse_tools.execute_pending_query: pop the record; when absent return
the friendly message, otherwise execute its SQL against the warehouse. -/
def execute_pending_query (query_id : String) (s : Store) : ExecResponse × Store :=
  match store_pop query_id s with
  | (none, s1) => (.message no_pending_msg, s1)
  | (some pq, s1) => (.ran pq.sql, s1)

/-- warehouse_tools._pending_response: the JSON payload json.dumps produces,
with the query object being asdict(pq) — all four dataclass fields in
declaration order. -/
def pending_response (pq : PendingQuery) : Json :=
  .obj [("status", .str "PENDING_APPROVAL"),
        ("query", .obj [("query_id", .str pq.query_id),
                        ("tool_name", .str pq.tool_name),
                        ("sql", .str pq.sql),
                        ("created_at", .num (pq.created_at : Int))])]

/-- An observable warehouse side effect: execute_pending_query running the SQL
of the pending query with the given id against Snowflake. The query tools
never emit such an event. -/
inductive Event where
  | ran (query_id : String) (sql : String) : Event
deriving Repr, DecidableEq

/-- Result of invoking one warehouse query tool: the string it returns
(tagged with its JSON parse status), the pending-query store afterwards, and
the warehouse side effects performed during the invocation. -/
structure ToolResult where
  response : Content
  store : Store
  events : List Event

/-- Python truthiness of an optional string argument (None and the empty
string are falsy). -/
def truthy : Option String → Bool
  | none => false
  | some s => !s.isEmpty

/-- Python str.split() with no separator: split on runs of whitespace,
discarding empty pieces. -/
def py_split (s : String) : List String :=
  (s.split Char.isWhitespace).filter (fun t => !t.isEmpty)

/-- os.getenv("SNOWFLAKE_DATABASE", "DB_T23") at module load, modelled by its
default value. -/
def SNOWFLAKE_DATABASE : String := "DB_T23"

/-- os.getenv("SNOWFLAKE_SCHEMA", "SC_T23") at module load, modelled by its
default value. -/
def SNOWFLAKE_SCHEMA : String := "SC_T23"

/-- The marts schema suffix constant. -/
def MARTS_SCHEMA : String := "MART"

/-- The schema prefix every generated query interpolates:
f-string piece SNOWFLAKE_DATABASE . SNOWFLAKE_SCHEMA _ MARTS_SCHEMA . -/
def marts_prefix : String :=
  SNOWFLAKE_DATABASE ++ "." ++ SNOWFLAKE_SCHEMA ++ "_" ++ MARTS_SCHEMA ++ "."

/-- The customer-name condition of query_transactions, including the
IndexError raised on a whitespace-only name (name_parts[0] on an empty list)
and the TRIP typo of the single-name branch, both as in the source. -/
def transactions_name_condition (customer_name : String) : Except String String :=
  match py_split customer_name.trim with
  | [] => .error "list index out of range"
  | [name] =>
      .ok ("TRIM(c.first_name) ILIKE ('%" ++ name ++ "%') OR TRIP(c.last_name) ILIKE '%" ++
        name ++ "%'")
  | first_name :: rest =>
      .ok ("TRIM(c.first_name) ILIKE '%" ++ first_name ++ "%' AND TRIM(c.last_name) ILIKE '%" ++
        String.intercalate " " rest ++ "%'")

/-- The optional customer-name condition list of query_transactions: empty
when the argument is falsy, otherwise the single condition or the raised
IndexError. -/
def transactions_name_conds (customer_name : Option String) : Except String (List String) :=
  if truthy customer_name then
    (transactions_name_condition (customer_name.getD "")).map (fun c => [c])
  else .ok []

/-- The SQL text query_transactions builds around its WHERE clause. -/
def query_transactions_sql (where_clause : String) (limit : Int) : String :=
  "\n        SELECT\n" ++
  "            c.customer_id,\n" ++
  "            c.first_name,\n" ++
  "            c.last_name,\n" ++
  "            h.asset_symbol,\n" ++
  "            h.asset_type,\n" ++
  "            t.transaction_type,\n" ++
  "            t.transaction_amount,\n" ++
  "            t.fee_amount,\n" ++
  "            t.transaction_timestamp,\n" ++
  "            t.data_date,\n" ++
  "            c.customer_tier,\n" ++
  "            c.country\n" ++
  "        FROM " ++ marts_prefix ++ "fct_transactions t\n" ++
  "        JOIN " ++ marts_prefix ++ "dim_customer c\n" ++
  "            ON t.customer_hk = c.customer_hk\n" ++
  "        JOIN " ++ marts_prefix ++ "dim_asset h\n" ++
  "            ON t.asset_hk = h.asset_hk\n" ++
  "        " ++ where_clause ++ "\n" ++
  "        ORDER BY t.transaction_timestamp DESC\n" ++
  "        LIMIT " ++ toString limit ++ "\n        "

/-- warehouse_tools.query_transactions: build the WHERE conditions, stage the
query, return the pending payload; an IndexError while building is caught and
returned as an error string, and no SQL is ever executed. -/
def query_transactions (customer_id customer_name asset_symbol transaction_type : Option String)
    (limit : Int) (now : Nat) (uid : String) (s : Store) : ToolResult :=
  let conds_cid :=
    if truthy customer_id then ["c.customer_id = '" ++ customer_id.getD "" ++ "'"] else []
  match transactions_name_conds customer_name with
  | .error msg => ⟨.raw ("Error preparing transactions query: " ++ msg), s, []⟩
  | .ok conds_name =>
      let conds_sym :=
        if truthy asset_symbol then ["h.asset_symbol = '" ++ asset_symbol.getD "" ++ "'"] else []
      let conds_type :=
        if truthy transaction_type then
          ["t.transaction_type = '" ++ (transaction_type.getD "").toUpper ++ "'"]
        else []
      let conditions := conds_cid ++ conds_name ++ conds_sym ++ conds_type
      let where_clause :=
        if conditions.isEmpty then "" else "WHERE " ++ String.intercalate " AND " conditions
      let (pq, s1) :=
        register_pending_query uid now "query_transactions" (query_transactions_sql where_clause limit) s
      ⟨.json (pending_response pq), s1, []⟩

/-- warehouse_tools.query_asset_prices: stage the price query and return the
pending payload. -/
def query_asset_prices (asset_symbol asset_type : Option String) (days limit : Int)
    (now : Nat) (uid : String) (s : Store) : ToolResult :=
  let conditions :=
    ["observed_at >= DATEADD(day, -" ++ toString days ++ ", CURRENT_DATE())"] ++
    (if truthy asset_symbol then ["asset_symbol = '" ++ asset_symbol.getD "" ++ "'"] else []) ++
    (if truthy asset_type then ["asset_type = '" ++ asset_type.getD "" ++ "'"] else [])
  let where_clause := "WHERE " ++ String.intercalate " AND " conditions
  let sql :=
    "\n        SELECT\n" ++
    "            asset_symbol,\n" ++
    "            asset_type,\n" ++
    "            observed_at,\n" ++
    "            price,\n" ++
    "            volume,\n" ++
    "            price_source,\n" ++
    "            asset_class,\n" ++
    "            price_date\n" ++
    "        FROM " ++ marts_prefix ++ "fct_asset_prices\n" ++
    "        " ++ where_clause ++ "\n" ++
    "        ORDER BY observed_at DESC\n" ++
    "        LIMIT " ++ toString limit ++ "\n        "
  let (pq, s1) := register_pending_query uid now "query_asset_prices" sql s
  ⟨.json (pending_response pq), s1, []⟩

/-- The group_by values query_transaction_summary accepts. -/
def valid_groups : List String :=
  ["asset_symbol", "customer_tier", "country", "transaction_type"]

/-- The message returned for an invalid group_by. -/
def invalid_group_by_msg : String :=
  "Invalid group_by. Must be one of: " ++ String.intercalate ", " valid_groups

/-- warehouse_tools.query_transaction_summary: reject an invalid group_by
without touching the store, otherwise stage the aggregation query. -/
def query_transaction_summary (group_by : String) (limit : Int)
    (now : Nat) (uid : String) (s : Store) : ToolResult :=
  if !(valid_groups.contains group_by) then
    ⟨.raw invalid_group_by_msg, s, []⟩
  else
    let sql :=
      "\n        SELECT\n" ++
      "            " ++ group_by ++ ",\n" ++
      "            COUNT(*) as transaction_count,\n" ++
      "            SUM(t.transaction_amount) as total_amount,\n" ++
      "            AVG(t.transaction_amount) as avg_amount,\n" ++
      "            SUM(t.fee_amount) as total_fees,\n" ++
      "            COUNT(DISTINCT t.customer_hk) as unique_customers\n" ++
      "        FROM " ++ marts_prefix ++ "fct_transactions t\n" ++
      "        JOIN " ++ marts_prefix ++ "dim_customer c\n" ++
      "            ON t.customer_hk = c.customer_hk\n" ++
      "        JOIN " ++ marts_prefix ++ "dim_asset h\n" ++
      "            ON t.asset_hk = h.asset_hk\n" ++
      "        GROUP BY " ++ group_by ++ "\n" ++
      "        ORDER BY total_amount DESC\n" ++
      "        LIMIT " ++ toString limit ++ "\n        "
    let (pq, s1) := register_pending_query uid now "query_transaction_summary" sql s
    ⟨.json (pending_response pq), s1, []⟩

/-- warehouse_tools.query_price_trends: stage the trend query. -/
def query_price_trends (asset_symbol : String) (days : Int)
    (now : Nat) (uid : String) (s : Store) : ToolResult :=
  let sql :=
    "\n        SELECT\n" ++
    "            asset_symbol,\n" ++
    "            price_date,\n" ++
    "            observed_at,\n" ++
    "            price,\n" ++
    "            volume,\n" ++
    "            price_source,\n" ++
    "            LAG(price) OVER (ORDER BY observed_at) as previous_price,\n" ++
    "            price - LAG(price) OVER (ORDER BY observed_at) as price_change,\n" ++
    "            ((price - LAG(price) OVER (ORDER BY observed_at)) / LAG(price) OVER (ORDER BY observed_at)) * 100 as price_change_pct\n" ++
    "        FROM " ++ marts_prefix ++ "fct_asset_prices\n" ++
    "        WHERE asset_symbol = '" ++ asset_symbol ++ "'\n" ++
    "            AND observed_at >= DATEADD(day, -" ++ toString days ++ ", CURRENT_DATE())\n" ++
    "        ORDER BY observed_at ASC\n        "
  let (pq, s1) := register_pending_query uid now "query_price_trends" sql s
  ⟨.json (pending_response pq), s1, []⟩

/-- warehouse_tools.query_news_events: stage the news query. -/
def query_news_events (asset_symbol : Option String) (limit : Int)
    (now : Nat) (uid : String) (s : Store) : ToolResult :=
  let where_clause :=
    if truthy asset_symbol then "WHERE h.asset_symbol = '" ++ asset_symbol.getD "" ++ "'" else ""
  let sql :=
    "\n        SELECT\n" ++
    "            h.asset_symbol,\n" ++
    "            n.title,\n" ++
    "            n.description,\n" ++
    "            n.published_at,\n" ++
    "            n.ingestion_source\n" ++
    "        FROM " ++ marts_prefix ++ "fct_news_events n\n" ++
    "        JOIN " ++ marts_prefix ++ "dim_asset h\n" ++
    "            ON n.asset_hk = h.asset_hk\n" ++
    "        " ++ where_clause ++ "\n" ++
    "        ORDER BY n.published_at DESC\n" ++
    "        LIMIT " ++ toString limit ++ "\n        "
  let (pq, s1) := register_pending_query uid now "query_news_events" sql s
  ⟨.json (pending_response pq), s1, []⟩

/-- The WHERE clause of query_customer_by_name, including the IndexError on a
whitespace-only name, as in the source (note the LIKE / ILIKE mix). -/
def customer_by_name_where (customer_name : String) : Except String String :=
  match py_split customer_name.trim with
  | [] => .error "list index out of range"
  | [name] =>
      .ok ("WHERE TRIM(c.first_name) LIKE '%" ++ name ++ "%' OR TRIM(c.last_name) LIKE '%" ++
        name ++ "%'")
  | first_name :: rest =>
      .ok ("WHERE TRIM(c.first_name) ILIKE '%" ++ first_name ++ "%' AND TRIM(c.last_name) LIKE '%" ++
        String.intercalate " " rest ++ "%'")

/-- warehouse_tools.query_customer_by_name: stage the customer search; an
IndexError while splitting the name is caught and returned as an error
string. -/
def query_customer_by_name (customer_name : String) (limit : Int)
    (now : Nat) (uid : String) (s : Store) : ToolResult :=
  match customer_by_name_where customer_name with
  | .error msg => ⟨.raw ("Error preparing customer search query: " ++ msg), s, []⟩
  | .ok where_clause =>
      let sql :=
        "\n        SELECT\n" ++
        "            c.customer_id,\n" ++
        "            c.first_name,\n" ++
        "            c.last_name,\n" ++
        "            c.email_addr,\n" ++
        "            c.country,\n" ++
        "            c.customer_tier,\n" ++
        "            c.risk_tolerance,\n" ++
        "            c.company_name\n" ++
        "        FROM " ++ marts_prefix ++ "dim_customer c\n" ++
        "        " ++ where_clause ++ "\n" ++
        "        ORDER BY c.customer_id\n" ++
        "        LIMIT " ++ toString limit ++ "\n        "
      let (pq, s1) := register_pending_query uid now "query_customer_by_name" sql s
      ⟨.json (pending_response pq), s1, []⟩

/-- One invocation of a privileged warehouse tool with its arguments, one
constructor per tool in warehouse_tools.WAREHOUSE_TOOLS. -/
inductive WCall where
  | transactions (customer_id customer_name asset_symbol transaction_type : Option String)
      (limit : Int) : WCall
  | asset_prices (asset_symbol asset_type : Option String) (days limit : Int) : WCall
  | transaction_summary (group_by : String) (limit : Int) : WCall
  | price_trends (asset_symbol : String) (days : Int) : WCall
  | news_events (asset_symbol : Option String) (limit : Int) : WCall
  | customer_by_name (customer_name : String) (limit : Int) : WCall

/-- The registered tool name of a warehouse tool call. -/
def wcall_name : WCall → String
  | .transactions _ _ _ _ _ => "query_transactions"
  | .asset_prices _ _ _ _ => "query_asset_prices"
  | .transaction_summary _ _ => "query_transaction_summary"
  | .price_trends _ _ => "query_price_trends"
  | .news_events _ _ => "query_news_events"
  | .customer_by_name _ _ => "query_customer_by_name"

/-- Dispatch of one warehouse tool call to the tool implementations above. -/
def run_warehouse_tool : WCall → Nat → String → Store → ToolResult
  | .transactions cid cname asym ttype limit, now, uid, s =>
      query_transactions cid cname asym ttype limit now uid s
  | .asset_prices asym atype days limit, now, uid, s =>
      query_asset_prices asym atype days limit now uid s
  | .transaction_summary group_by limit, now, uid, s =>
      query_transaction_summary group_by limit now uid s
  | .price_trends asym days, now, uid, s =>
      query_price_trends asym days now uid s
  | .news_events asym limit, now, uid, s =>
      query_news_events asym limit now uid s
  | .customer_by_name cname limit, now, uid, s =>
      query_customer_by_name cname limit now uid s

/-- The names of the tools in warehouse_tools.WAREHOUSE_TOOLS, in list
order. -/
def WAREHOUSE_TOOL_NAMES : List String :=
  ["query_transactions", "query_asset_prices", "query_transaction_summary",
   "query_price_trends", "query_news_events", "query_customer_by_name"]

/-- One operation on the pending-query store, for reasoning about arbitrary
interleavings of staging (by the tools), approval (execute_pending_query) and
cancellation (cancel_pending_query). -/
inductive StoreOp where
  | stage (uid : String) (now : Nat) (tool_name sql : String) : StoreOp
  | execute (query_id : String) : StoreOp
  | cancel (query_id : String) : StoreOp
deriving Repr, DecidableEq

/-- Apply one store operation, recording any warehouse execution as an
event. -/
def apply_op (s : Store) : StoreOp → Store × List Event
  | .stage uid now tool_name sql => ((register_pending_query uid now tool_name sql s).2, [])
  | .execute query_id =>
      match execute_pending_query query_id s with
      | (.message _, s1) => (s1, [])
      | (.ran sql, s1) => (s1, [.ran query_id sql])
  | .cancel query_id => ((cancel_pending_query query_id s).2, [])

/-- Run a sequence of store operations, accumulating the warehouse
executions they perform. -/
def run_ops (s : Store) : List StoreOp → Store × List Event
  | [] => (s, [])
  | op :: rest =>
      let (s1, evs1) := apply_op s op
      let (s2, evs2) := run_ops s1 rest
      (s2, evs1 ++ evs2)

/-- How many times a sequence of events executes the pending query with the
given id against the warehouse. -/
def count_ran (query_id : String) (evs : List Event) : Nat :=
  (evs.filter (fun e => match e with | .ran q _ => q == query_id)).length

/-- Whether a sequence of operations never stages a record under the given
id (uuid4 ids are fresh, so a consumed id is never staged again). -/
def no_stage (query_id : String) : List StoreOp → Bool
  | [] => true
  | .stage uid _ _ _ :: rest => !(uid == query_id) && no_stage query_id rest
  | _ :: rest => no_stage query_id rest

/-- One tool-call request carried by an assistant message: name, arguments
(kept opaque) and call id. -/
structure ToolCallReq where
  name : String
  args : String
  id : String
deriving Repr, DecidableEq

/-- A message of the LangGraph state: an assistant message with its tool-call
requests, a user message, or a tool-result message (ToolMessage with content,
name and tool_call_id). -/
inductive Msg where
  | ai (content : String) (tool_calls : List ToolCallReq) : Msg
  | human (content : String) : Msg
  | toolMsg (name : String) (id : String) (content : Content) : Msg

/-- A registered tool as seen by the dispatch loop: invoking it on arguments
either returns its string result or raises (Except.error carries str(e)). -/
def Registry := String → Option (String → Except String Content)

/-- The body of the dispatch loop of chatbot tools_node for one requested
tool call: resolve by name, synthesize a not-found ToolMessage when absent,
invoke otherwise, and convert a raised exception into an error-text
ToolMessage. -/
def dispatch_call (reg : Registry) (c : ToolCallReq) : Msg :=
  match reg c.name with
  | none => .toolMsg c.name c.id (.raw ("Tool " ++ c.name ++ " not found"))
  | some f =>
      match f c.args with
      | .ok r => .toolMsg c.name c.id r
      | .error e => .toolMsg c.name c.id (.raw ("Error: " ++ e))

/-- The dispatch loop of chatbot tools_node over the tool calls of the last
assistant message: one output ToolMessage per requested call, in order. -/
def dispatch_calls (reg : Registry) (calls : List ToolCallReq) : List Msg :=
  calls.map (dispatch_call reg)

/-- chatbot tools_node: dispatch the tool calls of the last message of the
state, or return no outputs when there is no last message or it carries no
tool calls. -/
def tools_node (reg : Registry) (msgs : List Msg) : List Msg :=
  match msgs.getLast? with
  | some (.ai _ calls) => dispatch_calls reg calls
  | _ => []

/-- chatbot AdvancedRAGChatbot._try_parse_pending_query_payload: json.loads
the content; on a dict whose status is the string PENDING_APPROVAL and whose
query is a dict, return that query dict; anything else (including a parse
failure) yields None. -/
def try_parse_pending_query_payload (payload : Content) : Option (List (String × Json)) :=
  match parse_json payload with
  | some (.obj fields) =>
      match obj_get fields "status", obj_get fields "query" with
      | some (.str st), some (.obj q) => if st == "PENDING_APPROVAL" then some q else none
      | _, _ => none
  | _ => none

mutual

/-- Python str() of a parsed JSON value (dict/list repr with single quotes).
Escaping inside strings is not modelled; no claim inspects this text beyond
its use as a truncated snippet. -/
def py_repr : Json → String
  | .null => "None"
  | .bool true => "True"
  | .bool false => "False"
  | .num n => toString n
  | .str s => "'" ++ s ++ "'"
  | .arr items => "[" ++ String.intercalate ", " (py_repr_list items) ++ "]"
  | .obj fields => "\x7b" ++ String.intercalate ", " (py_repr_fields fields) ++ "\x7d"

/-- py_repr over the items of a list. -/
def py_repr_list : List Json → List String
  | [] => []
  | j :: rest => py_repr j :: py_repr_list rest

/-- py_repr over the fields of a dict. -/
def py_repr_fields : List (String × Json) → List String
  | [] => []
  | (k, v) :: rest => ("'" ++ k ++ "': " ++ py_repr v) :: py_repr_fields rest

end

mutual

/-- json.dumps with default separators. Escaping inside strings is not
modelled; no claim inspects the serialized text. -/
def json_dumps : Json → String
  | .null => "null"
  | .bool true => "true"
  | .bool false => "false"
  | .num n => toString n
  | .str s => "\"" ++ s ++ "\""
  | .arr items => "[" ++ String.intercalate ", " (json_dumps_list items) ++ "]"
  | .obj fields => "\x7b" ++ String.intercalate ", " (json_dumps_fields fields) ++ "\x7d"

/-- json_dumps over the items of a list. -/
def json_dumps_list : List Json → List String
  | [] => []
  | j :: rest => json_dumps j :: json_dumps_list rest

/-- json_dumps over the fields of a dict. -/
def json_dumps_fields : List (String × Json) → List String
  | [] => []
  | (k, v) :: rest => ("\"" ++ k ++ "\": " ++ json_dumps v) :: json_dumps_fields rest

end

/-- The text of a Content as a Python string. -/
def content_text : Content → String
  | .raw s => s
  | .json j => json_dumps j

/-- One source citation record appended by the turn post-processor. -/
structure SourceRec where
  content : String
  metadata : Json

/-- Processing of one retrieved document dict by the chat post-processor:
content is doc.get("page_content", str(doc)) sliced to 200 characters with an
ellipsis appended, metadata is doc.get("metadata", an empty dict). A
page_content value that is not a string makes the slice-and-concatenate raise
TypeError, modelled as none. -/
def doc_item_source (d : List (String × Json)) : Option SourceRec :=
  match obj_get d "page_content" with
  | some (.str s) => some ⟨s.take 200 ++ "...", obj_getD d "metadata" (.obj [])⟩
  | some _ => none
  | none => some ⟨(py_repr (.obj d)).take 200 ++ "...", obj_getD d "metadata" (.obj [])⟩

/-- The source-collection loop over the first retrieved documents: non-dict
items are skipped, a TypeError aborts the loop (the sources already appended
survive, since the enclosing try swallows the exception). -/
def collect_sources : List Json → List SourceRec
  | [] => []
  | .obj d :: rest =>
      match doc_item_source d with
      | some src => src :: collect_sources rest
      | none => []
  | _ :: rest => collect_sources rest

/-- The sources a document_search tool-result message contributes: parse the
content as JSON; on a list, process its first 3 items; a parse failure or a
non-list value contributes nothing (the exception is swallowed). -/
def doc_search_sources (c : Content) : List SourceRec :=
  match parse_json c with
  | some (.arr docs) => collect_sources (docs.take 3)
  | _ => []

/-- Accumulator of the message-scanning loop of chat: sources, warehouse and
RAG tool usage, and detected pending-approval query dicts. -/
structure Extract where
  sources : List SourceRec
  warehouse_tools_used : List String
  rag_tools_used : List String
  pending_queries : List (List (String × Json))

/-- Handling of one requested tool call inside the scanning loop: a warehouse
tool name is appended to warehouse_tools_used, document_search is appended to
rag_tools_used (no deduplication on this path, as in the source). -/
def extract_step_call (acc : Extract) (tool_name : String) : Extract :=
  { acc with
    warehouse_tools_used := acc.warehouse_tools_used ++
      (if WAREHOUSE_TOOL_NAMES.contains tool_name then [tool_name] else []),
    rag_tools_used := acc.rag_tools_used ++
      (if tool_name == "document_search" then [tool_name] else []) }

/-- Handling of one message inside the scanning loop of chat: assistant
tool-call requests feed the tools-used lists; a document_search ToolMessage
contributes its sources and (deduplicated) RAG usage; every ToolMessage is
probed for a pending-approval payload. -/
def extract_step (acc : Extract) : Msg → Extract
  | .human _ => acc
  | .ai _ calls => calls.foldl (fun a c => extract_step_call a c.name) acc
  | .toolMsg name _ content =>
      let acc1 :=
        if name == "document_search" then
          { acc with
            rag_tools_used :=
              if acc.rag_tools_used.contains "document_search" then acc.rag_tools_used
              else acc.rag_tools_used ++ ["document_search"],
            sources := acc.sources ++ doc_search_sources content }
        else acc
      match try_parse_pending_query_payload content with
      | some q => { acc1 with pending_queries := acc1.pending_queries ++ [q] }
      | none => acc1

/-- The message-scanning loop of chat over the messages of this turn. -/
def extract_turn (msgs : List Msg) : Extract :=
  msgs.foldl extract_step ⟨[], [], [], []⟩

/-- The dictionary chat returns. pending_queries is an Option because the
source includes that key only in the pending_approval return. -/
structure TurnResult where
  answer : String
  sources : List SourceRec
  warehouse_tools_used : List String
  rag_tools_used : List String
  pending_queries : Option (List (List (String × Json)))
  method : String

/-- final_message.content for each message shape. -/
def msg_content : Msg → String
  | .ai c _ => c
  | .human c => c
  | .toolMsg _ _ ct => content_text ct

/-- Python or on strings: the left operand unless it is falsy (empty). -/
def py_or (a b : String) : String := if a.isEmpty then b else a

/-- The fallback answer of the pending_approval return. -/
def pending_fallback_answer : String :=
  "I can run a warehouse query to answer that. Please review and approve the SQL."

/-- The fallback answer of the agent_with_tools return. -/
def no_response_answer : String := "I couldn't generate a response."

/-- The slice result.messages[messages_before:] taken when messages_before is
positive, the whole list otherwise, as in the source. -/
def turn_msgs (all : List Msg) (messages_before : Nat) : List Msg :=
  if messages_before > 0 then all.drop messages_before else all

/-- The dictionary returned by the except branch of chat. -/
def error_result (e : String) : TurnResult :=
  ⟨"I encountered an error: " ++ e ++ ". Please try rephrasing your question.",
    [], [], [], none, "error"⟩

/-- The post-invoke part of chat: read the answer from the last message, scan
only this turn's messages, and return the pending_approval dictionary when
any pending query was detected, the agent_with_tools dictionary otherwise.
An empty message list makes result.messages[-1] raise IndexError, which the
enclosing try converts into the error dictionary. -/
def process_turn (all : List Msg) (messages_before : Nat) : TurnResult :=
  match all.getLast? with
  | none => error_result "list index out of range"
  | some last =>
      let answer := msg_content last
      let ex := extract_turn (turn_msgs all messages_before)
      if !ex.pending_queries.isEmpty then
        ⟨py_or answer pending_fallback_answer, ex.sources, ex.warehouse_tools_used,
          ex.rag_tools_used, some ex.pending_queries, "pending_approval"⟩
      else
        ⟨py_or answer no_response_answer, ex.sources, ex.warehouse_tools_used,
          ex.rag_tools_used, none, "agent_with_tools"⟩

/-- chatbot AdvancedRAGChatbot.chat. The argument models the try body up to
and including graph.invoke: ok carries the full message list after the turn
together with the pre-turn message count, error carries str(e) of an
exception raised by the reasoning backend or any other step of the turn. -/
def chat (outcome : Except String (List Msg × Nat)) : TurnResult :=
  match outcome with
  | .error e => error_result e
  | .ok (msgs, messages_before) => process_turn msgs messages_before

/-- chatbot AdvancedRAGChatbot.execute_approved_query delegates to
warehouse_tools.execute_pending_query. -/
def execute_approved_query (query_id : String) (s : Store) : ExecResponse × Store :=
  execute_pending_query query_id s

/-- chatbot AdvancedRAGChatbot.cancel_query delegates to
warehouse_tools.cancel_pending_query. -/
def cancel_query (query_id : String) (s : Store) : Bool × Store :=
  cancel_pending_query query_id s

theorem find?_append_of_none {α : Type} (p : α → Bool) (l1 l2 : List α)
    (h : l1.find? p = none) : (l1 ++ l2).find? p = l2.find? p := by
  induction l1 with
  | nil => rfl
  | cons a t ih =>
      cases hpa : p a with
      | true =>
          rw [List.find?_cons_of_pos _ hpa] at h
          exact absurd h (by simp)
      | false =>
          rw [List.cons_append, List.find?_cons_of_neg _ (by simp [hpa])]
          rw [List.find?_cons_of_neg _ (by simp [hpa])] at h
          exact ih h

theorem erase_find?_none (q : String) (s : Store) :
    (store_erase q s).find? (fun p => p.1 == q) = none := by
  apply List.find?_eq_none.2
  intro x hx
  have hmem := List.of_mem_filter hx
  simpa using hmem

theorem store_lookup_erase_self (q : String) (s : Store) :
    store_lookup q (store_erase q s) = none := by
  unfold store_lookup
  rw [erase_find?_none]
  rfl

theorem store_lookup_none_erase (q k : String) (s : Store)
    (h : store_lookup q s = none) : store_lookup q (store_erase k s) = none := by
  unfold store_lookup at h ⊢
  rw [Option.map_eq_none'] at h ⊢
  apply List.find?_eq_none.2
  intro x hx
  exact List.find?_eq_none.1 h x (List.mem_of_mem_filter hx)

theorem store_lookup_insert_self (k : String) (pq : PendingQuery) (s : Store) :
    store_lookup k (store_insert k pq s) = some pq := by
  unfold store_lookup store_insert
  rw [find?_append_of_none _ _ _ (erase_find?_none k s)]
  simp [List.find?]

theorem store_lookup_none_insert (q k : String) (pq : PendingQuery) (s : Store)
    (hk : (k == q) = false) (h : store_lookup q s = none) :
    store_lookup q (store_insert k pq s) = none := by
  unfold store_lookup store_insert
  have h1 : (store_erase k s).find? (fun p => p.1 == q) = none := by
    unfold store_lookup at h
    rw [Option.map_eq_none'] at h
    apply List.find?_eq_none.2
    intro x hx
    exact List.find?_eq_none.1 h x (List.mem_of_mem_filter hx)
  rw [find?_append_of_none _ _ _ h1]
  simp [List.find?, hk]

theorem store_erase_idem (q : String) (s : Store) :
    store_erase q (store_erase q s) = store_erase q s := by
  unfold store_erase
  rw [List.filter_filter]
  simp

theorem count_ran_append (q : String) (a b : List Event) :
    count_ran q (a ++ b) = count_ran q a + count_ran q b := by
  unfold count_ran
  rw [List.filter_append, List.length_append]

/-- After any operation that is not a staging of q, an absent q stays absent
and no execution of q can be recorded. -/
theorem apply_op_absent (q : String) (s : Store) (op : StoreOp)
    (hs : store_lookup q s = none)
    (hop : ∀ now tn sql, op ≠ .stage q now tn sql) :
    store_lookup q (apply_op s op).1 = none ∧ count_ran q (apply_op s op).2 = 0 := by
  cases op with
  | stage uid now tn sql =>
      have huid : (uid == q) = false := by
        cases hq : uid == q with
        | true =>
            exact absurd (congrArg (fun t => StoreOp.stage t now tn sql) (eq_of_beq hq))
              (hop now tn sql)
        | false => rfl
      refine ⟨?_, rfl⟩
      simpa [apply_op, register_pending_query] using
        store_lookup_none_insert q uid _ s huid hs
  | execute k =>
      cases hk : store_lookup k s with
      | none =>
          simp only [apply_op, execute_pending_query, store_pop, hk]
          exact ⟨store_lookup_none_erase q k s hs, rfl⟩
      | some pq =>
          have hkq : (k == q) = false := by
            cases hq : k == q with
            | true => rw [eq_of_beq hq] at hk; rw [hk] at hs; exact absurd hs (by simp)
            | false => rfl
          simp only [apply_op, execute_pending_query, store_pop, hk]
          exact ⟨store_lookup_none_erase q k s hs, by simp [count_ran, hkq]⟩
  | cancel k =>
      simp only [apply_op, cancel_pending_query, store_pop, store_erase]
      exact ⟨store_lookup_none_erase q k s hs, rfl⟩

/-- A consumed (or never staged) id is never executed by any later operations
that do not stage it again. -/
theorem run_ops_absent (q : String) (ops : List StoreOp) (s : Store)
    (hs : store_lookup q s = none) (hn : no_stage q ops = true) :
    count_ran q (run_ops s ops).2 = 0 := by
  induction ops generalizing s with
  | nil => rfl
  | cons op rest ih =>
      have hop : ∀ now tn sql, op ≠ .stage q now tn sql := by
        intro now tn sql hcontra
        subst hcontra
        simp [no_stage] at hn
      have h1 := apply_op_absent q s op hs hop
      have hn2 : no_stage q rest = true := by
        cases op with
        | stage uid now tn sql => simp [no_stage] at hn; exact hn.2
        | execute k => simpa [no_stage] using hn
        | cancel k => simpa [no_stage] using hn
      simp only [run_ops]
      rw [count_ran_append, h1.2, ih _ h1.1 hn2]

/-- Any run of store operations that never (re)stages q executes q at most
once against the warehouse. -/
theorem run_ops_le_one (q : String) (ops : List StoreOp) :
    ∀ s : Store, no_stage q ops = true → count_ran q (run_ops s ops).2 ≤ 1 := by
  induction ops with
  | nil => intro s _; simp [run_ops, count_ran]
  | cons op rest ih =>
      intro s hn
      have hn2 : no_stage q rest = true := by
        cases op with
        | stage uid now tn sql => simp [no_stage] at hn; exact hn.2
        | execute k => simpa [no_stage] using hn
        | cancel k => simpa [no_stage] using hn
      simp only [run_ops]
      rw [count_ran_append]
      cases op with
      | stage uid now tn sql => simpa [apply_op, count_ran] using ih _ hn2
      | cancel k => simpa [apply_op, count_ran] using ih _ hn2
      | execute k =>
          cases hk : store_lookup k s with
          | none =>
              simp only [apply_op, execute_pending_query, store_pop, hk]
              simpa [count_ran] using ih _ hn2
          | some pq =>
              simp only [apply_op, execute_pending_query, store_pop, hk]
              cases hkq : k == q with
              | false => simpa [count_ran, hkq] using ih _ hn2
              | true =>
                  have hkq2 : k = q := eq_of_beq hkq
                  subst hkq2
                  have h0 : count_ran k (run_ops (store_erase k s) rest).2 = 0 :=
                    run_ops_absent k rest _ (store_lookup_erase_self k s) hn2
                  have h1 : count_ran k [Event.ran k pq.sql] = 1 := by simp [count_ran]
                  rw [h1, h0]

/-- Claim C1: the staged privileged operation behind a query_id is consumed at
most once. Over any initial store and any sequence of execute, cancel and
(fresh-id) stage operations that never stages q, the warehouse executes the
pending query q at most once in total; and once q is absent from the store
(already executed or cancelled), no later execute or cancel performs the
operation at all. -/
theorem C1_at_most_once_execution (q : String) (s : Store) (ops : List StoreOp)
    (hn : no_stage q ops = true) :
    count_ran q (run_ops s ops).2 ≤ 1 ∧
    (store_lookup q s = none → count_ran q (run_ops s ops).2 = 0) :=
  ⟨run_ops_le_one q ops s hn, fun hs => run_ops_absent q ops s hs hn⟩

/-- A store holding the single staged query q1. -/
def sample_store : Store := [("q1", ⟨"q1", "query_transactions", "SELECT 1", 0⟩)]

theorem C1_at_most_once_execution_witness :
    count_ran "q1" (run_ops sample_store
      [StoreOp.execute "q1", StoreOp.execute "q1", StoreOp.cancel "q1"]).2 ≤ 1 ∧
    count_ran "q2" (run_ops sample_store
      [StoreOp.execute "q2", StoreOp.execute "q2"]).2 = 0 := by
  refine ⟨(C1_at_most_once_execution "q1" sample_store _ (by decide)).1, ?_⟩
  exact (C1_at_most_once_execution "q2" sample_store _ (by decide)).2 (by decide)

/-- Claim C4: cancelling a staged query succeeds once and only once, and
executing after a successful cancel returns the no-pending-query message
without touching the warehouse or the store. -/
theorem C4_idempotent_cancel_consume (q : String) (s : Store)
    (h : (store_lookup q s).isSome = true) :
    (cancel_pending_query q s).1 = true ∧
    (cancel_pending_query q (cancel_pending_query q s).2).1 = false ∧
    execute_pending_query q (cancel_pending_query q s).2 =
      (ExecResponse.message no_pending_msg, (cancel_pending_query q s).2) := by
  have h2 : (cancel_pending_query q s).2 = store_erase q s := rfl
  refine ⟨?_, ?_, ?_⟩
  · simpa [cancel_pending_query, store_pop] using h
  · rw [h2]
    simp [cancel_pending_query, store_pop, store_lookup_erase_self]
  · rw [h2]
    simp only [execute_pending_query, store_pop, store_lookup_erase_self]
    rw [store_erase_idem]

theorem C4_idempotent_cancel_consume_witness :
    (cancel_pending_query "q1" sample_store).1 = true ∧
    (cancel_pending_query "q1" (cancel_pending_query "q1" sample_store).2).1 = false ∧
    execute_pending_query "q1" (cancel_pending_query "q1" sample_store).2 =
      (ExecResponse.message no_pending_msg, (cancel_pending_query "q1" sample_store).2) :=
  C4_idempotent_cancel_consume "q1" sample_store (by decide)

/-- Claim C10: an invalid group_by makes query_transaction_summary return the
invalid-group message (which lists the valid values), stage nothing, leave
the store unchanged and execute nothing. -/
theorem C10_invalid_group_by (group_by : String) (limit : Int) (now : Nat)
    (uid : String) (s : Store) (h : group_by ∉ valid_groups) :
    query_transaction_summary group_by limit now uid s =
      ⟨.raw invalid_group_by_msg, s, []⟩ := by
  have hc : valid_groups.contains group_by = false := by
    cases hcc : valid_groups.contains group_by with
    | false => rfl
    | true => exact absurd (by simpa using hcc) h
  unfold query_transaction_summary
  rw [hc]
  rfl

theorem C10_invalid_group_by_witness :
    query_transaction_summary "asset" 20 0 "uid-1" sample_store =
      ⟨.raw invalid_group_by_msg, sample_store, []⟩ ∧
    invalid_group_by_msg =
      "Invalid group_by. Must be one of: asset_symbol, customer_tier, country, transaction_type" :=
  ⟨C10_invalid_group_by "asset" 20 0 "uid-1" sample_store (by decide), rfl⟩

/-- Claim C2: a privileged warehouse tool invocation performs no warehouse
execution, and either returns an error string leaving the store untouched
(arguments on which building the query raises or is rejected) or returns
exactly the PENDING_APPROVAL payload of the query it staged under the fresh
id, now present in the store under the name of the invoked tool. -/
theorem C2_approval_gating (c : WCall) (now : Nat) (uid : String) (s : Store) :
    (run_warehouse_tool c now uid s).events = [] ∧
    ((∃ msg, (run_warehouse_tool c now uid s).response = .raw msg ∧
        (run_warehouse_tool c now uid s).store = s) ∨
     (∃ pq : PendingQuery,
        (run_warehouse_tool c now uid s).response = .json (pending_response pq) ∧
        (run_warehouse_tool c now uid s).store = store_insert uid pq s ∧
        store_lookup uid (run_warehouse_tool c now uid s).store = some pq ∧
        pq.query_id = uid ∧ pq.tool_name = wcall_name c)) := by
  cases c with
  | transactions cid cname asym ttype limit =>
      simp only [run_warehouse_tool, query_transactions]
      cases hnc : transactions_name_conds cname with
      | error msg => exact ⟨rfl, Or.inl ⟨_, rfl, rfl⟩⟩
      | ok conds =>
          refine ⟨rfl, Or.inr ⟨_, rfl, rfl, ?_, rfl, rfl⟩⟩
          exact store_lookup_insert_self uid _ s
  | asset_prices asym atype days limit =>
      refine ⟨rfl, Or.inr ⟨_, rfl, rfl, ?_, rfl, rfl⟩⟩
      exact store_lookup_insert_self uid _ s
  | transaction_summary group_by limit =>
      simp only [run_warehouse_tool, query_transaction_summary]
      cases hc : valid_groups.contains group_by with
      | false => exact ⟨rfl, Or.inl ⟨_, rfl, rfl⟩⟩
      | true =>
          refine ⟨rfl, Or.inr ⟨_, rfl, rfl, ?_, rfl, rfl⟩⟩
          exact store_lookup_insert_self uid _ s
  | price_trends asym days =>
      refine ⟨rfl, Or.inr ⟨_, rfl, rfl, ?_, rfl, rfl⟩⟩
      exact store_lookup_insert_self uid _ s
  | news_events asym limit =>
      refine ⟨rfl, Or.inr ⟨_, rfl, rfl, ?_, rfl, rfl⟩⟩
      exact store_lookup_insert_self uid _ s
  | customer_by_name cname limit =>
      simp only [run_warehouse_tool, query_customer_by_name]
      cases hw : customer_by_name_where cname with
      | error msg => exact ⟨rfl, Or.inl ⟨_, rfl, rfl⟩⟩
      | ok wc =>
          refine ⟨rfl, Or.inr ⟨_, rfl, rfl, ?_, rfl, rfl⟩⟩
          exact store_lookup_insert_self uid _ s

/-- The pending payload staged by one concrete query_transactions call. -/
def sample_payload : Json :=
  pending_response (register_pending_query "uuid-1" 123 "query_transactions" "SELECT 1" []).1

/-- The field names of the query object of a pending-approval payload. -/
def payload_query_keys (j : Json) : List String :=
  match j with
  | .obj fields =>
      match obj_get fields "query" with
      | some (.obj q) => q.map (fun p => p.1)
      | _ => []
  | _ => []

/-- Claim C3 counterexample: the query object of the payload a privileged
tool returns carries four fields — query_id, tool_name, sql and created_at —
not exactly the three fields the claim states. -/
theorem C3_exact_shape_counterexample :
    payload_query_keys sample_payload = ["query_id", "tool_name", "sql", "created_at"] ∧
    payload_query_keys sample_payload ≠ ["query_id", "tool_name", "sql"] ∧
    "created_at" ∈ payload_query_keys sample_payload := by
  exact ⟨rfl, by decide, by decide⟩

/-- Claim C3 (amended): the payload is exactly the object with status
PENDING_APPROVAL and a query object of the four fields query_id, tool_name,
sql and created_at, in that order, and the turn post-processor detector
recognizes this payload, returning that query object. -/
theorem C3_payload_shape (pq : PendingQuery) :
    pending_response pq =
      Json.obj [("status", .str "PENDING_APPROVAL"),
        ("query", Json.obj [("query_id", .str pq.query_id), ("tool_name", .str pq.tool_name),
          ("sql", .str pq.sql), ("created_at", .num (pq.created_at : Int))])] ∧
    try_parse_pending_query_payload (.json (pending_response pq)) =
      some [("query_id", .str pq.query_id), ("tool_name", .str pq.tool_name),
        ("sql", .str pq.sql), ("created_at", .num (pq.created_at : Int))] :=
  ⟨rfl, rfl⟩

/-- Claim C5: on a completed turn, detecting at least one pending-approval
payload among the turn's messages makes the returned method pending_approval
with every detected query listed, regardless of the final answer text;
detecting none makes the method agent_with_tools. -/
theorem C5_pending_approval_method (all : List Msg) (messages_before : Nat)
    (h : all ≠ []) :
    ((extract_turn (turn_msgs all messages_before)).pending_queries ≠ [] →
      (process_turn all messages_before).method = "pending_approval" ∧
      (process_turn all messages_before).pending_queries =
        some (extract_turn (turn_msgs all messages_before)).pending_queries) ∧
    ((extract_turn (turn_msgs all messages_before)).pending_queries = [] →
      (process_turn all messages_before).method = "agent_with_tools" ∧
      (process_turn all messages_before).pending_queries = none) := by
  obtain ⟨last, hlast⟩ : ∃ last, all.getLast? = some last := by
    cases hg : all.getLast? with
    | some l => exact ⟨l, rfl⟩
    | none => exact absurd (List.getLast?_eq_none_iff.1 hg) h
  simp only [process_turn, hlast]
  constructor
  · intro hp
    have hne : (extract_turn (turn_msgs all messages_before)).pending_queries.isEmpty = false := by
      cases hi : (extract_turn (turn_msgs all messages_before)).pending_queries.isEmpty with
      | false => rfl
      | true => exact absurd (List.isEmpty_iff.1 hi) hp
    simp [hne]
  · intro hp
    have hi : (extract_turn (turn_msgs all messages_before)).pending_queries.isEmpty = true :=
      List.isEmpty_iff.2 hp
    simp [hi]

/-- A turn in which the assistant called query_transactions and received the
pending payload, then produced a final narrative answer. -/
def sample_turn : List Msg :=
  [.human "show transactions",
   .ai "" [⟨"query_transactions", "\x7b\x7d", "call-1"⟩],
   .toolMsg "query_transactions" "call-1" (.json sample_payload),
   .ai "The query needs your approval." []]

theorem C5_pending_approval_method_witness :
    (process_turn sample_turn 0).method = "pending_approval" ∧
    (process_turn sample_turn 0).pending_queries =
      some (extract_turn (turn_msgs sample_turn 0)).pending_queries := by
  refine (C5_pending_approval_method sample_turn 0
    (List.ne_nil_of_length_pos (by decide))).1 ?_
  intro hcontra
  have hlen : (extract_turn (turn_msgs sample_turn 0)).pending_queries.length = 0 := by
    rw [hcontra]; rfl
  exact absurd hlen (by decide)

/-- Claim C6: on a turn over a thread with non-empty prior history, the
reported sources, tool usage and pending queries are computed from the
messages appended during the turn alone — prior messages contribute
nothing. -/
theorem C6_turn_attribution (prior new : List Msg) (h : 0 < prior.length) :
    (process_turn (prior ++ new) prior.length).sources = (extract_turn new).sources ∧
    (process_turn (prior ++ new) prior.length).warehouse_tools_used =
      (extract_turn new).warehouse_tools_used ∧
    (process_turn (prior ++ new) prior.length).rag_tools_used =
      (extract_turn new).rag_tools_used ∧
    (process_turn (prior ++ new) prior.length).pending_queries =
      (if (extract_turn new).pending_queries.isEmpty then none
       else some (extract_turn new).pending_queries) := by
  have hmsgs : turn_msgs (prior ++ new) prior.length = new := by
    simp [turn_msgs, h, List.drop_left]
  obtain ⟨last, hlast⟩ : ∃ last, (prior ++ new).getLast? = some last := by
    cases hg : (prior ++ new).getLast? with
    | some l => exact ⟨l, rfl⟩
    | none =>
        have := List.getLast?_eq_none_iff.1 hg
        rcases List.append_eq_nil.1 this with ⟨h1, _⟩
        exact absurd h1 (List.ne_nil_of_length_pos h)
  simp only [process_turn, hlast, hmsgs]
  cases hq : (extract_turn new).pending_queries.isEmpty with
  | true => simp [hq]
  | false => simp [hq]

theorem C6_turn_attribution_witness :
    (process_turn ([.human "hello", .ai "hi there" []] ++ sample_turn) 2).sources =
      (extract_turn sample_turn).sources ∧
    (process_turn ([.human "hello", .ai "hi there" []] ++ sample_turn) 2).warehouse_tools_used =
      (extract_turn sample_turn).warehouse_tools_used :=
  ⟨(C6_turn_attribution [.human "hello", .ai "hi there" []] sample_turn (by decide)).1,
   (C6_turn_attribution [.human "hello", .ai "hi there" []] sample_turn (by decide)).2.1⟩

/-- The list of retrieved documents a content parses to (empty when it is not
a JSON list); statement-side helper for C7. -/
def parsed_docs (c : Content) : List Json :=
  match parse_json c with
  | some (.arr docs) => docs
  | _ => []

/-- Every collected source comes from one document of the scanned list via
the per-item rule, and the loop emits at most one source per document. -/
theorem collect_sources_spec (docs : List Json) :
    (collect_sources docs).length ≤ docs.length ∧
    ∀ src ∈ collect_sources docs, ∃ d, Json.obj d ∈ docs ∧ doc_item_source d = some src := by
  induction docs with
  | nil =>
      refine ⟨Nat.le_refl 0, ?_⟩
      intro src hsrc
      cases hsrc
  | cons j rest ih =>
      cases j with
      | obj d =>
          cases hd : doc_item_source d with
          | none =>
              simp only [collect_sources, hd]
              exact ⟨Nat.zero_le _, by intro src hsrc; cases hsrc⟩
          | some src0 =>
              simp only [collect_sources, hd]
              refine ⟨Nat.succ_le_succ ih.1, ?_⟩
              intro src hsrc
              rcases List.mem_cons.1 hsrc with heq | hmem
              · exact ⟨d, List.mem_cons_self _ _, heq ▸ hd⟩
              · rcases ih.2 src hmem with ⟨d2, hd2, hsome⟩
                exact ⟨d2, List.mem_cons_of_mem _ hd2, hsome⟩
      | null =>
          simp only [collect_sources]
          refine ⟨Nat.le_succ_of_le ih.1, ?_⟩
          intro src hsrc
          rcases ih.2 src hsrc with ⟨d2, hd2, hsome⟩
          exact ⟨d2, List.mem_cons_of_mem _ hd2, hsome⟩
      | bool b =>
          simp only [collect_sources]
          refine ⟨Nat.le_succ_of_le ih.1, ?_⟩
          intro src hsrc
          rcases ih.2 src hsrc with ⟨d2, hd2, hsome⟩
          exact ⟨d2, List.mem_cons_of_mem _ hd2, hsome⟩
      | num n =>
          simp only [collect_sources]
          refine ⟨Nat.le_succ_of_le ih.1, ?_⟩
          intro src hsrc
          rcases ih.2 src hsrc with ⟨d2, hd2, hsome⟩
          exact ⟨d2, List.mem_cons_of_mem _ hd2, hsome⟩
      | str t =>
          simp only [collect_sources]
          refine ⟨Nat.le_succ_of_le ih.1, ?_⟩
          intro src hsrc
          rcases ih.2 src hsrc with ⟨d2, hd2, hsome⟩
          exact ⟨d2, List.mem_cons_of_mem _ hd2, hsome⟩
      | arr xs =>
          simp only [collect_sources]
          refine ⟨Nat.le_succ_of_le ih.1, ?_⟩
          intro src hsrc
          rcases ih.2 src hsrc with ⟨d2, hd2, hsome⟩
          exact ⟨d2, List.mem_cons_of_mem _ hd2, hsome⟩

/-- The content of every emitted source is the raw text sliced to 200
characters with the ellipsis marker appended. -/
theorem doc_item_source_content (d : List (String × Json)) (src : SourceRec)
    (h : doc_item_source d = some src) :
    ∃ raw : String, src.content = raw.take 200 ++ "..." := by
  unfold doc_item_source at h
  cases hg : obj_get d "page_content" with
  | none =>
      rw [hg] at h
      exact ⟨py_repr (.obj d), by rw [← Option.some_inj.1 h]⟩
  | some j =>
      rw [hg] at h
      cases j with
      | str t => exact ⟨t, by rw [← Option.some_inj.1 h]⟩
      | null => exact absurd h (by simp)
      | bool b => exact absurd h (by simp)
      | num n => exact absurd h (by simp)
      | arr xs => exact absurd h (by simp)
      | obj fs => exact absurd h (by simp)

/-- Claim C7: a document_search tool result yields at most 3 sources, each
produced from one of the first 3 retrieved items with its content truncated
to 200 characters plus an ellipsis; content that does not parse as a list
yields no sources (and the post-processor is total, so no error escapes). -/
theorem C7_doc_search_sources (c : Content) :
    (doc_search_sources c).length ≤ 3 ∧
    (∀ src ∈ doc_search_sources c, ∃ d, Json.obj d ∈ (parsed_docs c).take 3 ∧
      doc_item_source d = some src ∧ ∃ raw : String, src.content = raw.take 200 ++ "...") ∧
    ((∀ docs, parse_json c ≠ some (.arr docs)) → doc_search_sources c = []) := by
  cases hp : parse_json c with
  | none =>
      refine ⟨?_, ?_, fun _ => ?_⟩ <;> simp [doc_search_sources, hp]
  | some j =>
      cases j with
      | arr docs =>
          have heq : doc_search_sources c = collect_sources (docs.take 3) := by
            simp [doc_search_sources, hp]
          have hdocs : parsed_docs c = docs := by simp [parsed_docs, hp]
          have hs := collect_sources_spec (docs.take 3)
          refine ⟨?_, ?_, ?_⟩
          · rw [heq]
            exact le_trans hs.1 (List.length_take_le 3 docs)
          · intro src hsrc
            rw [heq] at hsrc
            rcases hs.2 src hsrc with ⟨d, hd, hsome⟩
            exact ⟨d, by rw [hdocs]; exact hd, hsome, doc_item_source_content d src hsome⟩
          · intro hnone
            exact absurd hp (fun hcontra => (hnone docs) (hp ▸ hcontra))
      | null => refine ⟨?_, ?_, fun _ => ?_⟩ <;> simp [doc_search_sources, hp]
      | bool b => refine ⟨?_, ?_, fun _ => ?_⟩ <;> simp [doc_search_sources, hp]
      | num n => refine ⟨?_, ?_, fun _ => ?_⟩ <;> simp [doc_search_sources, hp]
      | str t => refine ⟨?_, ?_, fun _ => ?_⟩ <;> simp [doc_search_sources, hp]
      | obj fs => refine ⟨?_, ?_, fun _ => ?_⟩ <;> simp [doc_search_sources, hp]

/-- A document_search result with one well-formed retrieved document. -/
def sample_doc_content : Content :=
  .json (.arr [.obj [("page_content", .str "hello"), ("metadata", .obj [])]])

set_option maxRecDepth 4000 in
theorem C7_doc_search_sources_witness :
    (doc_search_sources sample_doc_content).length ≤ 3 ∧
    ∃ d, Json.obj d ∈ (parsed_docs sample_doc_content).take 3 ∧
      doc_item_source d = some (⟨"hello" ++ "...", .obj []⟩ : SourceRec) ∧
      ∃ raw : String, (⟨"hello" ++ "...", .obj []⟩ : SourceRec).content = raw.take 200 ++ "..." := by
  have h := C7_doc_search_sources sample_doc_content
  refine ⟨h.1, h.2.1 ⟨"hello" ++ "...", .obj []⟩ ?_⟩
  exact List.mem_singleton.mpr rfl

/-- Claim C8 counterexample: at a turn whose backend raised the exception
boom, the returned dictionary has method error but contains no
pending_queries entry at all (modelled as none), so pending_queries is not an
empty list as the claim states. -/
theorem C8_error_counterexample :
    (chat (Except.error "boom")).method = "error" ∧
    (chat (Except.error "boom")).pending_queries = none ∧
    (chat (Except.error "boom")).pending_queries ≠
      some ([] : List (List (String × Json))) :=
  ⟨rfl, rfl, fun hcontra => Option.noConfusion hcontra⟩

/-- Claim C8 (amended): an exception raised inside the turn never propagates:
chat returns method error, the user-safe message around str(e), empty
sources, empty warehouse and RAG tool lists — and no pending_queries entry
(absent key, read as no pending queries by callers). -/
theorem C8_error_turn (e : String) :
    chat (Except.error e) =
      ⟨"I encountered an error: " ++ e ++ ". Please try rephrasing your question.",
        [], [], [], none, "error"⟩ := rfl

/-- Claim C9: dispatching the requested tool calls produces exactly one
tool-result message per call in order, so one failing call never aborts the
others; an unregistered name yields the tool-not-found message, and an
exception raised by the tool is caught and converted into the error-text
message. -/
theorem C9_tool_dispatch (reg : Registry) (pre post : List ToolCallReq) (c : ToolCallReq) :
    (dispatch_calls reg (pre ++ c :: post)).length = (pre ++ c :: post).length ∧
    dispatch_calls reg (pre ++ c :: post) =
      dispatch_calls reg pre ++ dispatch_call reg c :: dispatch_calls reg post ∧
    (∀ ms cnt, tools_node reg (ms ++ [Msg.ai cnt (pre ++ c :: post)]) =
      dispatch_calls reg (pre ++ c :: post)) ∧
    (reg c.name = none →
      dispatch_call reg c = .toolMsg c.name c.id (.raw ("Tool " ++ c.name ++ " not found"))) ∧
    (∀ f e, reg c.name = some f → f c.args = .error e →
      dispatch_call reg c = .toolMsg c.name c.id (.raw ("Error: " ++ e))) := by
  refine ⟨by simp [dispatch_calls], by simp [dispatch_calls], ?_, ?_, ?_⟩
  · intro ms cnt
    simp [tools_node, List.getLast?_concat]
  · intro h
    simp [dispatch_call, h]
  · intro f e hf he
    simp [dispatch_call, hf, he]

/-- A registry with a single registered tool whose invocation raises. -/
def sample_registry : Registry := fun n =>
  if n = "boom_tool" then some (fun _ => .error "backend down") else none

theorem C9_tool_dispatch_witness :
    dispatch_call sample_registry ⟨"missing_tool", "", "c1"⟩ =
      .toolMsg "missing_tool" "c1" (.raw "Tool missing_tool not found") ∧
    dispatch_call sample_registry ⟨"boom_tool", "", "c2"⟩ =
      .toolMsg "boom_tool" "c2" (.raw "Error: backend down") :=
  ⟨(C9_tool_dispatch sample_registry [] [] ⟨"missing_tool", "", "c1"⟩).2.2.2.1 rfl,
   (C9_tool_dispatch sample_registry [] [] ⟨"boom_tool", "", "c2"⟩).2.2.2.2
     (fun _ => .error "backend down") "backend down" rfl rfl⟩

end StockCryptoChatbot
